import Mathlib

set_option maxRecDepth 10000

/-!
Verification development for the image-ingestion pipeline of
`src/main.ts` (an Obsidian image-converter plugin).

The pipeline of `handleDrop` / `handlePaste` is embedded shallowly:
every external collaborator (FolderAndFilenameManagement, ImageProcessor,
vault, modals, LinkFormatter) is a function field of an `Env` record, and
one unit of work is a pure function from the environment to the list of
observable effects it performs (notices, vault writes, transcoder
invocations, link insertions).  JavaScript exceptions of awaited calls are
modelled as `Except String` results; a promise that rejects is an
`Except.error` carrying the error message.
-/

namespace ImageConverter

/-- Modelled from the spec: `ConversionPreset` of `ImageConverterSettings`
(the class itself is not under `src/`); fields are those read by
`main.ts` plus the skip-conversion pattern source (§3 of the spec). -/
structure ConversionPreset where
  name : String
  outputFormat : String
  quality : Nat
  colorDepth : Nat
  resizeMode : String
  desiredWidth : Nat
  desiredHeight : Nat
  desiredLongestEdge : Nat
  enlargeOrReduce : String
  allowLargerFiles : Bool
  skipConversionPatterns : String
deriving DecidableEq, Repr

/-- Modelled from the spec: `FilenamePreset` of `ImageConverterSettings`
(not under `src/`): a name, a conflict-resolution policy string
("increment" / "reuse" / ...), and the skip-rename pattern source. -/
structure FilenamePreset where
  name : String
  conflictResolution : String
  skipRenamePatterns : String
deriving DecidableEq, Repr

/-- Modelled from the spec: `FolderPreset` (not under `src/`); `main.ts`
only threads it through, so only its name is modelled. -/
structure FolderPreset where
  name : String
deriving DecidableEq, Repr

/-- Modelled from the spec: `LinkFormatPreset` of `LinkFormatSettings`
(not under `src/`): link format (e.g. "wikilink") and path format. -/
structure LinkFormatPreset where
  name : String
  linkFormat : String
  pathFormat : String
deriving DecidableEq, Repr

/-- Modelled from the spec: `NonDestructiveResizePreset` (not under
`src/`); `main.ts` only threads it through. -/
structure NonDestructiveResizePreset where
  name : String
deriving DecidableEq, Repr

/-- Modelled from the spec: the `linkFormatSettings` sub-record of the
settings object, as read by `main.ts`. -/
structure LinkFormatSettings where
  selectedLinkFormatPreset : String
  linkFormatPresets : List LinkFormatPreset
deriving DecidableEq, Repr

/-- Modelled from the spec: the `nonDestructiveResizeSettings` sub-record
of the settings object, as read by `main.ts`. -/
structure NonDestructiveResizeSettings where
  selectedResizePreset : String
  resizePresets : List NonDestructiveResizePreset
deriving DecidableEq, Repr

/-- The fields of the plugin settings object that `handleDrop`,
`handlePaste`, `insertLinkAtCursorPosition`, `showSizeComparisonNotification`
and the drop/paste event gates read. -/
structure Settings where
  modalBehavior : String
  selectedConversionPreset : String
  conversionPresets : List ConversionPreset
  selectedFilenamePreset : String
  filenamePresets : List FilenamePreset
  selectedFolderPreset : String
  folderPresets : List FolderPreset
  linkFormatSettings : LinkFormatSettings
  nonDestructiveResizeSettings : NonDestructiveResizeSettings
  neverProcessFilenames : String
  revertToOriginalIfLarger : Bool
  showSpaceSavedNotification : Bool
  cursorLocation : String
  outputFormat : String
  quality : Nat
  colorDepth : Nat
  resizeMode : String
  desiredWidth : Nat
  desiredHeight : Nat
  desiredLongestEdge : Nat
  enlargeOrReduce : String
  allowLargerFiles : Bool
deriving Repr

/-- An incoming raw `File`: name, mime type and content bytes.
`file.size` and `file.arrayBuffer().byteLength` both equal the length of
the byte list. -/
structure RawFile where
  name : String
  type : String
  bytes : List Nat
deriving DecidableEq, Repr

/-- `file.size`. -/
def RawFile.size (f : RawFile) : Nat := f.bytes.length

/-- One entry of `evt.clipboardData.items` as captured by the paste
handler: `kind`, `type` and `getAsFile()` (null for non-file items). -/
structure ClipItem where
  kind : String
  type : String
  file : Option RawFile
deriving DecidableEq, Repr

/-- The result of `determineDestination`. -/
structure DestResult where
  destinationPath : String
  newFilename : String
deriving DecidableEq, Repr

/-- The argument tuple `handleDrop` / `handlePaste` pass to
`imageProcessor.processImage` after the file itself.  The source passes
`quality / 100` (a float in 0..1); the unscaled 0..100 value is recorded
here. -/
structure ProcessArgs where
  outputFormat : String
  quality : Nat
  colorDepth : Nat
  resizeMode : String
  desiredWidth : Nat
  desiredHeight : Nat
  desiredLongestEdge : Nat
  enlargeOrReduce : String
  allowLargerFiles : Bool
deriving DecidableEq, Repr

/-- The five presets a unit works with, as resolved by the modal or by
`getPresetByName` over the settings.  Each is optional: in JavaScript a
lookup in an empty preset collection yields `undefined`, and every use
site in `main.ts` guards with a truthiness check. -/
structure PresetBundle where
  conversion : Option ConversionPreset
  filename : Option FilenamePreset
  folder : Option FolderPreset
  linkFormat : Option LinkFormatPreset
  resize : Option NonDestructiveResizePreset
deriving DecidableEq, Repr

/-- Observable effects of one unit of work: user notices, the
size-comparison notice (recording the two sizes passed to
`showSizeComparisonNotification`), transcoder invocations, vault binary
writes, and link insertions into the document. -/
inductive Effect where
  | notice (msg : String)
  | sizeNotice (originalSize newSize : Nat)
  | processImage (filename : String)
  | createBinary (path : String) (bytes : List Nat)
  | insertLink (path : String)
deriving DecidableEq, Repr

/-- True exactly for user-facing `new Notice(...)` effects. -/
def Effect.isNotice : Effect → Bool
  | Effect.notice _ => true
  | _ => false

/-- The behavior of every external collaborator the pipeline awaits or
calls.  A JavaScript call that may throw (equivalently, an awaited
promise that may reject) is a function into `Except String`; the error
value is the thrown error's message. -/
structure Env where
  /-- Awaiting the `ConfirmDialog` promise under `modalBehavior = "ask"`.
  Its only resolution path in `main.ts` passes `true`, so a successful
  await always sets `showModal` to true; a dialog dismissed without
  resolving never settles and is not modelled. -/
  confirmDialogResult : Except String Unit
  /-- Awaiting the `PresetSelectionModal` promise: the five chosen
  presets, or a rejection. -/
  modalInteraction : Except String PresetBundle
  /-- `folderAndFilenameManagement.determineDestination(file, activeFile,
  conversionPreset, filenamePreset, folderPreset)`. -/
  determineDestination : RawFile → String → Option ConversionPreset →
    Option FilenamePreset → Option FolderPreset → Except String DestResult
  /-- `folderAndFilenameManagement.ensureFolderExists(path)`. -/
  ensureFolderExists : String → Except String Unit
  /-- `folderAndFilenameManagement.handleNameConflicts(path, filename, "increment")`. -/
  handleNameConflicts : String → String → String → Except String String
  /-- `folderAndFilenameManagement.combinePath(destinationPath, newFilename)`. -/
  combinePath : String → String → String
  /-- `folderAndFilenameManagement.should_skip_rename(fileName, filenamePreset)`. -/
  should_skip_rename : String → FilenamePreset → Bool
  /-- `folderAndFilenameManagement.should_skip_conversion(fileName, conversionPreset)`. -/
  should_skip_conversion : String → ConversionPreset → Bool
  /-- `folderAndFilenameManagement.matches_patterns(fileName, patterns)`. -/
  matches_patterns : String → String → Bool
  /-- `supportedImageFormats.isSupported(mimeType, fileName)`. -/
  isSupported : String → String → Bool
  /-- `app.vault.getAbstractFileByPath(path)`: the path of the existing
  entry when one exists (an entry is identified here by its path). -/
  getAbstractFileByPath : String → Option String
  /-- `app.vault.createBinary(path, bytes)`: the created file's path, or
  a thrown error (e.g. "File already exists").  The vault API never
  resolves to null, so the source's defensive `!tfile` checks are dead
  and not modelled. -/
  createBinary : String → List Nat → Except String String
  /-- `imageProcessor.processImage(file, ...)`: the transcoded bytes or a
  thrown error. -/
  processImage : RawFile → ProcessArgs → Except String (List Nat)
  /-- `linkFormatter.formatLink(linkPath, linkFormat, pathFormat,
  activeFile, resizePreset)`; modelled as total. -/
  formatLink : String → String → String → Option String →
    Option NonDestructiveResizePreset → String

/-! ## Leaf helpers of `main.ts` -/

/-- `getPresetByName(presetName, presetArray, presetType)`: the first
entry whose name matches, else the first entry of the collection
(`presetArray[0]`, which is `undefined` — `none` — only when the
collection is empty).  `nameOf` stands for the `.name` field access of
the generic `T extends { name: string }`. -/
def getPresetByName {T : Type} (nameOf : T → String) (presetName : String)
    (presetArray : List T) : Option T :=
  match presetArray.find? (fun p => nameOf p == presetName) with
  | some preset => some preset
  | none => presetArray.head?

/-- Whether `getPresetByName` takes its `console.warn` fallback branch. -/
def getPresetByNameWarned {T : Type} (nameOf : T → String)
    (presetName : String) (presetArray : List T) : Bool :=
  (presetArray.find? (fun p => nameOf p == presetName)).isNone

/-- `formatFileSize(bytes)` helper: `toFixed(1)` of `num / den` where
`den` is a power of two, i.e. the number of tenths, rounded to nearest
with ties away from zero (ECMAScript `toFixed` picks the larger
candidate at a tie; `num / den` is an exact double for the sizes at
hand, so no floating error occurs). -/
def roundTenths (num den : Nat) : Nat :=
  (20 * num + den) / (2 * den)

/-- Rendering of a tenths count the way `toFixed(1)` renders it. -/
def oneDecimalString (t : Nat) : String :=
  toString (t / 10) ++ "." ++ toString (t % 10)

/-- `formatFileSize(bytes)` of `main.ts`. -/
def formatFileSize (bytes : Nat) : String :=
  if bytes < 1024 then
    toString bytes ++ " bytes"
  else if bytes < 1024 * 1024 then
    oneDecimalString (roundTenths bytes 1024) ++ " KB"
  else
    oneDecimalString (roundTenths bytes (1024 * 1024)) ++ " MB"

/-- `showSizeComparisonNotification(originalSize, newSize)`: emits one
size-comparison notice (rendered from `formatFileSize` of both sizes and
the percent change) unless the setting is off. -/
def showSizeComparisonNotification (s : Settings) (originalSize newSize : Nat) :
    List Effect :=
  if s.showSpaceSavedNotification then [Effect.sizeNotice originalSize newSize]
  else []

/-- JavaScript `s.includes(pat)` on strings. -/
def strIncludes (s pat : String) : Bool :=
  decide (List.IsInfix pat.toList s.toList)

/-- JavaScript `s.startsWith(pat)` on strings. -/
def strStartsWith (s pat : String) : Bool :=
  decide (List.IsPrefix pat.toList s.toList)

/-! ## Notice strings of `main.ts` (drop variants where they differ) -/

def destFailNotice (fileName : String) : String :=
  "Failed to determine destination or filename for \"" ++ fileName ++
    "\". Check console for details."

def skipRenameNotice (fileName : String) : String :=
  "Skipped renaming/conversion of image \"" ++ fileName ++
    "\" due to skip pattern match."

def incrementFailNotice (fileName : String) : String :=
  "Error incrementing filename for \"" ++ fileName ++
    "\". Check console for details."

def skipConversionNotice (fileName : String) : String :=
  "Skipped conversion of image \"" ++ fileName ++
    "\" due to skip pattern match in the conversion preset."

def usingOriginalNotice (fileName : String) : String :=
  "Using original image for \"" ++ fileName ++ "\" as processed image is larger."

def alreadyExistsNotice (newFilename : String) : String :=
  "Failed to process image: File \"" ++ newFilename ++ "\" already exists."

def invalidInputNotice (fileName : String) : String :=
  "Failed to process image: Invalid input file type for \"" ++ fileName ++ "\"."

def genericFailNotice (fileName errMsg : String) : String :=
  "Failed to process image \"" ++ fileName ++ "\": " ++ errMsg ++
    ". Check console for details."

def unexpectedNotice : String :=
  "An unexpected error occurred. Check console for details."

/-- The notice string that differs between the near-duplicate bodies of
`handleDrop` and `handlePaste` (their only observable difference besides
the placement of the per-unit try/catch; the file-creation failure
notices also differ, but only on the unmodelled null-result branches). -/
structure UnitMsgs where
  folderFail : String → String

def dropMsgs : UnitMsgs where
  folderFail p := "Failed to create folder \"" ++ p ++ "\". Check console for details."

def pasteMsgs : UnitMsgs where
  folderFail p := "Failed to create folder: " ++ p

/-- The catch at step 3.5.6: classification of a processing-stage error
by its message. -/
def classifyProcessNotice (errMsg newFilename fileName : String) : String :=
  if strIncludes errMsg "File already exists" then alreadyExistsNotice newFilename
  else if strIncludes errMsg "Invalid input file type" then invalidInputNotice fileName
  else genericFailNotice fileName errMsg

/-! ## Preset resolution (steps 3 / 3.1 of both handlers) -/

/-- The default bundle used when no modal is shown: one
`getPresetByName` lookup per preset axis. -/
def resolveDefaultBundle (s : Settings) : PresetBundle where
  conversion := getPresetByName ConversionPreset.name
    s.selectedConversionPreset s.conversionPresets
  filename := getPresetByName FilenamePreset.name
    s.selectedFilenamePreset s.filenamePresets
  folder := getPresetByName FolderPreset.name
    s.selectedFolderPreset s.folderPresets
  linkFormat := getPresetByName LinkFormatPreset.name
    s.linkFormatSettings.selectedLinkFormatPreset s.linkFormatSettings.linkFormatPresets
  resize := getPresetByName NonDestructiveResizePreset.name
    s.nonDestructiveResizeSettings.selectedResizePreset
    s.nonDestructiveResizeSettings.resizePresets

/-- The preset-resolution phase shared verbatim by both handlers:
`showModal` is true under "always", and under "ask" after the confirm
dialog resolves (its only resolution carries `true`); a shown modal
yields the user's bundle or a rejection; otherwise the defaults are
used. -/
def presetPhase (s : Settings) (env : Env) : Except String PresetBundle :=
  if s.modalBehavior == "always" then env.modalInteraction
  else if s.modalBehavior == "ask" then
    match env.confirmDialogResult with
    | Except.ok _ => env.modalInteraction
    | Except.error e => Except.error e
  else Except.ok (resolveDefaultBundle s)

/-! ## The per-unit pipeline (steps 3.2 - 3.7, shared body) -/

/-- `selectedFilenamePreset && should_skip_rename(file.name, selectedFilenamePreset)`. -/
def skipRenameHit (env : Env) (file : RawFile) (b : PresetBundle) : Bool :=
  match b.filename with
  | some fp => env.should_skip_rename file.name fp
  | none => false

/-- `selectedConversionPreset && should_skip_conversion(file.name, selectedConversionPreset)`. -/
def skipConversionHit (env : Env) (file : RawFile) (b : PresetBundle) : Bool :=
  match b.conversion with
  | some cp => env.should_skip_conversion file.name cp
  | none => false

/-- `selectedFilenamePreset && selectedFilenamePreset.conflictResolution === r`. -/
def filenameResIs (b : PresetBundle) (r : String) : Bool :=
  match b.filename with
  | some fp => fp.conflictResolution == r
  | none => false

/-- Step 3.5.3/3.5.4/3.5.5: the ternary chain building the
`processImage` argument list (each argument falls back to the settings
field when the conversion preset is undefined). -/
def processArgsFor (s : Settings) (cp : Option ConversionPreset) : ProcessArgs :=
  match cp with
  | some p =>
    ⟨p.outputFormat, p.quality, p.colorDepth, p.resizeMode, p.desiredWidth,
      p.desiredHeight, p.desiredLongestEdge, p.enlargeOrReduce, p.allowLargerFiles⟩
  | none =>
    ⟨s.outputFormat, s.quality, s.colorDepth, s.resizeMode, s.desiredWidth,
      s.desiredHeight, s.desiredLongestEdge, s.enlargeOrReduce, s.allowLargerFiles⟩

/-- Steps 3.5.2 - 3.5.6: skip-conversion copy, or transcoding with
revert-if-larger and the per-error classification.  A throw of
`createBinary` in the transcoding branch lands in the same inner catch
as a `processImage` throw; a throw in the skip-conversion branch lands
in the outer per-unit catch (step 3.7). -/
def unitProcessStage (s : Settings) (env : Env)
    (file : RawFile) (b : PresetBundle) (newFullPath newFilename : String) :
    List Effect :=
  if skipConversionHit env file b then
    Effect.notice (skipConversionNotice file.name) ::
    Effect.createBinary newFullPath file.bytes ::
    (match env.createBinary newFullPath file.bytes with
     | Except.ok tpath => [Effect.insertLink tpath]
     | Except.error _ => [Effect.notice unexpectedNotice])
  else
    Effect.processImage file.name ::
    (match env.processImage file (processArgsFor s b.conversion) with
     | Except.error e =>
       [Effect.notice (classifyProcessNotice e newFilename file.name)]
     | Except.ok processedImage =>
       if s.revertToOriginalIfLarger ∧ file.size < processedImage.length then
         showSizeComparisonNotification s file.size processedImage.length ++
         Effect.notice (usingOriginalNotice file.name) ::
         Effect.createBinary newFullPath file.bytes ::
         (match env.createBinary newFullPath file.bytes with
          | Except.ok tpath => [Effect.insertLink tpath]
          | Except.error e =>
            [Effect.notice (classifyProcessNotice e newFilename file.name)])
       else
         showSizeComparisonNotification s file.size processedImage.length ++
         Effect.createBinary newFullPath processedImage ::
         (match env.createBinary newFullPath processedImage with
          | Except.ok tpath => [Effect.insertLink tpath]
          | Except.error e =>
            [Effect.notice (classifyProcessNotice e newFilename file.name)]))

/-- Step 3.5 / 3.5.1: the reuse short-circuit, then the process stage. -/
def unitMaterializeStage (s : Settings) (env : Env)
    (file : RawFile) (b : PresetBundle) (destinationPath newFilename : String)
    (existingFile : Option String) : List Effect :=
  match existingFile with
  | some ef =>
    if filenameResIs b "reuse" then [Effect.insertLink ef]
    else unitProcessStage s env file b
      (env.combinePath destinationPath newFilename) newFilename
  | none => unitProcessStage s env file b
      (env.combinePath destinationPath newFilename) newFilename

/-- Step 3.4 / 3.6: the skip-rename branch (which suppresses all further
processing, inserting a link only when the destination already holds an
entry), the increment branch, and the fall-through to materialization. -/
def unitConflictStage (s : Settings) (env : Env)
    (file : RawFile) (b : PresetBundle) (dest : DestResult) : List Effect :=
  let existingFile0 :=
    env.getAbstractFileByPath (dest.destinationPath ++ "/" ++ dest.newFilename)
  if skipRenameHit env file b then
    Effect.notice (skipRenameNotice file.name) ::
    (match existingFile0 with
     | some ef => [Effect.insertLink ef]
     | none => [])
  else if filenameResIs b "increment" then
    match env.handleNameConflicts dest.destinationPath dest.newFilename "increment" with
    | Except.error _ => [Effect.notice (incrementFailNotice file.name)]
    | Except.ok nf =>
      unitMaterializeStage s env file b dest.destinationPath nf
        (env.getAbstractFileByPath (dest.destinationPath ++ "/" ++ nf))
  else
    unitMaterializeStage s env file b dest.destinationPath
      dest.newFilename existingFile0

/-- Steps 3.2 - 3.6 (everything after preset resolution), shared between
the two handlers up to the message variants: destination planning,
folder creation (where only an error message starting with
"Folder already exists" is treated as success), then the conflict stage. -/
def unitBody (msgs : UnitMsgs) (s : Settings) (env : Env)
    (activeFile : String) (file : RawFile) (b : PresetBundle) : List Effect :=
  match env.determineDestination file activeFile b.conversion b.filename b.folder with
  | Except.error _ => [Effect.notice (destFailNotice file.name)]
  | Except.ok dest =>
    match env.ensureFolderExists dest.destinationPath with
    | Except.ok _ => unitConflictStage s env file b dest
    | Except.error e =>
      if strStartsWith e "Folder already exists" then
        unitConflictStage s env file b dest
      else [Effect.notice (msgs.folderFail dest.destinationPath)]

/-- One `handleDrop` unit: the whole body, preset resolution included,
sits inside the per-unit try/catch of step 3.7, so any escaped throw
becomes the generic unexpected-error notice and the promise resolves. -/
def dropUnit (s : Settings) (env : Env) (activeFile : String)
    (file : RawFile) : List Effect :=
  match presetPhase s env with
  | Except.error _ => [Effect.notice unexpectedNotice]
  | Except.ok b => unitBody dropMsgs s env activeFile file b

/-- One `handlePaste` unit: the try/catch of step 3.7 opens only after
preset resolution, so a throw during the modal/preset segment escapes
the unit's async function and rejects its promise. -/
def pasteUnit (s : Settings) (env : Env) (activeFile : String)
    (file : RawFile) : Except String (List Effect) :=
  match presetPhase s env with
  | Except.error e => Except.error e
  | Except.ok b => Except.ok (unitBody pasteMsgs s env activeFile file b)

/-! ## Event level -/

/-- The outcome of one drop/paste event: event-level notices emitted
before fan-out, and one effect trace per unit, in file order. -/
structure EventOutcome where
  notices : List Effect
  units : List (List Effect)
deriving DecidableEq, Repr

/-- The `editor-drop` gate (`dropPaste_registerEvents`): `preventDefault`
is called (and `handleDrop` invoked) exactly when some file is supported
and does not match the never-process patterns. -/
def dropEventGate (s : Settings) (env : Env) (fileData : List RawFile) : Bool :=
  fileData.any (fun d =>
    env.isSupported d.type d.name &&
    !(env.matches_patterns d.name s.neverProcessFilenames))

/-- The `editor-paste` gate, analogous for clipboard items. -/
def pasteEventGate (s : Settings) (env : Env) (items : List ClipItem) : Bool :=
  items.any (fun d =>
    d.kind == "file" &&
    (match d.file with
     | some f => env.isSupported d.type f.name &&
         !(env.matches_patterns f.name s.neverProcessFilenames)
     | none => false))

/-- `handleDrop`: filters by `isSupported` alone (the never-process
patterns are not re-checked here), bails out on an empty filtered list
or a missing active file, then fans out one unit per file; the
`Promise.all` join is total because every unit catches its own errors. -/
def handleDrop (s : Settings) (env : Env) (fileData : List RawFile)
    (activeFileOpt : Option String) : EventOutcome :=
  let supportedFiles := fileData.filter (fun d => env.isSupported d.type d.name)
  if supportedFiles.length = 0 then ⟨[], []⟩
  else
    match activeFileOpt with
    | none => ⟨[Effect.notice "No active file detected."], []⟩
    | some activeFile =>
      ⟨[], supportedFiles.map (fun file => dropUnit s env activeFile file)⟩

/-- The supported-files filter of `handlePaste`: file items whose file is
non-null and supported (never-process patterns again not re-checked). -/
def pasteSupportedFiles (env : Env) (items : List ClipItem) : List RawFile :=
  (items.filter (fun d =>
    d.kind == "file" &&
    (match d.file with
     | some f => env.isSupported d.type f.name
     | none => false))).filterMap (fun d => d.file)

/-- `handlePaste`: as `handleDrop`, but a unit whose preset-resolution
segment throws rejects its promise, and then the `Promise.all` join
rejects with that error. -/
def handlePaste (s : Settings) (env : Env) (items : List ClipItem)
    (activeFileOpt : Option String) : Except String EventOutcome :=
  let supportedFiles := pasteSupportedFiles env items
  if supportedFiles.length = 0 then Except.ok ⟨[], []⟩
  else
    match activeFileOpt with
    | none => Except.ok ⟨[Effect.notice "No active file found!"], []⟩
    | some activeFile =>
      (supportedFiles.mapM (fun file => pasteUnit s env activeFile file)).map
        (fun us => ⟨[], us⟩)

/-! ## Link insertion (`insertLinkAtCursorPosition`) -/

/-- An editor position: line and character offset. -/
structure EditorPosition where
  line : Nat
  ch : Nat
deriving DecidableEq, Repr

/-- The observable outcome of `insertLinkAtCursorPosition`: the inserted
text, where it was inserted, the cursor afterwards, and whether
`setCursor` was called. -/
structure InsertResult where
  insertedText : String
  insertedAt : EditorPosition
  cursorAfter : EditorPosition
  usedSetCursor : Bool
deriving DecidableEq, Repr

/-- JavaScript `x?.field || dflt` over an optional string: the default
stands in both for a missing preset and for an empty (falsy) field. -/
def jsStringOr (o : Option String) (dflt : String) : String :=
  match o with
  | some s => if s == "" then dflt else s
  | none => dflt

/-- `insertLinkAtCursorPosition(editor, linkPath, cursor, preset?, resize?)`:
resolves missing presets against the settings, formats the link, inserts
it with `replaceRange` at the captured position (which leaves the cursor
at the front), and calls `setCursor` advancing by the formatted string's
length exactly when `cursorLocation` is "back". -/
def insertLinkAtCursorPosition (s : Settings) (env : Env)
    (activeFile : Option String) (linkPath : String) (cursor : EditorPosition)
    (selectedLinkFormatPreset : Option LinkFormatPreset)
    (selectedResizePreset : Option NonDestructiveResizePreset) : InsertResult :=
  let linkFormatPresetToUse := selectedLinkFormatPreset <|>
    s.linkFormatSettings.linkFormatPresets.find?
      (fun p => p.name == s.linkFormatSettings.selectedLinkFormatPreset)
  let resizePresetToUse := selectedResizePreset <|>
    s.nonDestructiveResizeSettings.resizePresets.find?
      (fun p => p.name == s.nonDestructiveResizeSettings.selectedResizePreset)
  let formattedLink := env.formatLink linkPath
    (jsStringOr (linkFormatPresetToUse.map LinkFormatPreset.linkFormat) "wikilink")
    (jsStringOr (linkFormatPresetToUse.map LinkFormatPreset.pathFormat) "shortest")
    activeFile resizePresetToUse
  { insertedText := formattedLink
    insertedAt := cursor
    cursorAfter :=
      if s.cursorLocation == "back" then
        ⟨cursor.line, cursor.ch + formattedLink.length⟩
      else cursor
    usedSetCursor := s.cursorLocation == "back" }

/-! ## Concrete fixtures for witnesses and counterexamples -/

def cpBase : ConversionPreset :=
  ⟨"Default", "webp", 80, 1, "None", 800, 600, 1000, "Auto", false, ""⟩

def fpKeep : FilenamePreset := ⟨"Default", "keep", ""⟩

def fpReuse : FilenamePreset := ⟨"Default", "reuse", ""⟩

def settingsBase : Settings where
  modalBehavior := "never"
  selectedConversionPreset := "Default"
  conversionPresets := [cpBase]
  selectedFilenamePreset := "Default"
  filenamePresets := [fpKeep]
  selectedFolderPreset := "Default"
  folderPresets := [⟨"Default"⟩]
  linkFormatSettings := ⟨"Default", [⟨"Default", "wikilink", "shortest"⟩]⟩
  nonDestructiveResizeSettings := ⟨"Default", [⟨"Default"⟩]⟩
  neverProcessFilenames := ""
  revertToOriginalIfLarger := false
  showSpaceSavedNotification := true
  cursorLocation := "front"
  outputFormat := "webp"
  quality := 75
  colorDepth := 1
  resizeMode := "None"
  desiredWidth := 800
  desiredHeight := 600
  desiredLongestEdge := 1000
  enlargeOrReduce := "Auto"
  allowLargerFiles := false

/-- A benign environment: every collaborator succeeds, no destination
entry exists, no pattern matches, every file is supported. -/
def envBase : Env where
  confirmDialogResult := Except.ok ()
  modalInteraction := Except.error "modal unused"
  determineDestination := fun _ _ _ _ _ => Except.ok ⟨"assets", "photo.webp"⟩
  ensureFolderExists := fun _ => Except.ok ()
  handleNameConflicts := fun _ f _ => Except.ok f
  combinePath := fun d f => d ++ "/" ++ f
  should_skip_rename := fun _ _ => false
  should_skip_conversion := fun _ _ => false
  matches_patterns := fun _ _ => false
  isSupported := fun _ _ => true
  getAbstractFileByPath := fun _ => none
  createBinary := fun p _ => Except.ok p
  processImage := fun _ _ => Except.ok [0]
  formatLink := fun p _ _ _ _ => "![[" ++ p ++ "]]"

def fileBase : RawFile := ⟨"photo.png", "image/png", [1, 2, 3]⟩

def fileNever : RawFile := ⟨"tmp.png", "image/png", [9]⟩

def itemBase : ClipItem := ⟨"file", "image/png", some fileBase⟩

/-- The preset bundle `resolveDefaultBundle settingsBase` yields. -/
def bundleBase : PresetBundle :=
  ⟨some cpBase, some fpKeep, some ⟨"Default"⟩,
    some ⟨"Default", "wikilink", "shortest"⟩, some ⟨"Default"⟩⟩

/-- `bundleBase` with the reuse conflict policy. -/
def bundleReuse : PresetBundle :=
  ⟨some cpBase, some fpReuse, some ⟨"Default"⟩,
    some ⟨"Default", "wikilink", "shortest"⟩, some ⟨"Default"⟩⟩

def envSkipRename : Env :=
  { envBase with should_skip_rename := fun _ _ => true }

def envSkipConv : Env :=
  { envBase with should_skip_conversion := fun _ _ => true }

def envExisting : Env :=
  { envBase with getAbstractFileByPath := fun p => some p }

def envFolderExists : Env :=
  { envBase with
    ensureFolderExists := fun _ => Except.error "Folder already exists: assets" }

def envFolderFail : Env :=
  { envBase with ensureFolderExists := fun _ => Except.error "disk full" }

def envProcFail : Env :=
  { envBase with
    processImage := fun _ _ => Except.error "Invalid input file type: bmp" }

def envLarger : Env :=
  { envBase with processImage := fun _ _ => Except.ok [0, 0, 0, 0] }

def envModalFail : Env :=
  { envBase with modalInteraction := Except.error "preset modal failure" }

def envNever : Env :=
  { envBase with matches_patterns := fun n _ => n == "tmp.png" }

def settingsRevert : Settings :=
  { settingsBase with revertToOriginalIfLarger := true }

def settingsNever : Settings :=
  { settingsBase with neverProcessFilenames := "tmp*" }

def settingsAlways : Settings :=
  { settingsBase with modalBehavior := "always" }

def settingsBack : Settings :=
  { settingsBase with cursorLocation := "back" }

/-! ## Theorems -/

/-- Fan-out structure of `handleDrop`: the per-unit traces of an event
are exactly the per-file unit computations of the `isSupported`-filtered
file list, so each unit's trace is a function of its own file alone
(shared by several claim theorems below). -/
theorem handleDrop_units (s : Settings) (env : Env) (fileData : List RawFile)
    (activeFile : String) :
    (handleDrop s env fileData (some activeFile)).units =
      (fileData.filter (fun d => env.isSupported d.type d.name)).map
        (fun file => dropUnit s env activeFile file) := by
  unfold handleDrop
  by_cases h : (fileData.filter (fun d => env.isSupported d.type d.name)).length = 0
  · rw [List.length_eq_zero] at h
    simp [h]
  · simp [h]

/-- C5: Reuse short-circuit.  For a unit whose filename preset has
`conflictResolution = "reuse"`, when an entry already exists at the
computed final destination path and the unit is not in the skip-rename
branch, the unit's whole trace is a single link insertion pointing to
the pre-existing entry: no vault write occurs and the transcoder is not
invoked.  Stated over the shared unit body, hence it covers both
`handleDrop` (msgs := dropMsgs) and `handlePaste` (msgs := pasteMsgs). -/
theorem reuse_short_circuit
    (msgs : UnitMsgs) (s : Settings) (env : Env) (activeFile : String)
    (file : RawFile) (b : PresetBundle) (fp : FilenamePreset)
    (dest : DestResult) (ef : String)
    (hfp : b.filename = some fp)
    (hres : fp.conflictResolution = "reuse")
    (hskip : env.should_skip_rename file.name fp = false)
    (hdd : env.determineDestination file activeFile b.conversion b.filename
      b.folder = Except.ok dest)
    (hfold : env.ensureFolderExists dest.destinationPath = Except.ok ())
    (hex : env.getAbstractFileByPath
      (dest.destinationPath ++ "/" ++ dest.newFilename) = some ef) :
    unitBody msgs s env activeFile file b = [Effect.insertLink ef] ∧
    (∀ p bts, Effect.createBinary p bts ∉ unitBody msgs s env activeFile file b) ∧
    (∀ n, Effect.processImage n ∉ unitBody msgs s env activeFile file b) := by
  have h1 : skipRenameHit env file b = false := by
    simp [skipRenameHit, hfp, hskip]
  have h2 : filenameResIs b "increment" = false := by
    simp [filenameResIs, hfp, hres]
  have h3 : filenameResIs b "reuse" = true := by
    simp [filenameResIs, hfp, hres]
  have hmain : unitBody msgs s env activeFile file b = [Effect.insertLink ef] := by
    simp only [unitBody, hdd]
    simp only [hfold]
    simp only [unitConflictStage, hex, h1, h2]
    simp [unitMaterializeStage, h3]
  refine ⟨hmain, ?_, ?_⟩ <;> simp [hmain]

/-- Witness for the reuse short-circuit at a concrete environment whose
destination entry exists. -/
theorem reuse_short_circuit_witness :
    unitBody dropMsgs settingsBase envExisting "note.md" fileBase bundleReuse =
      [Effect.insertLink "assets/photo.webp"] ∧
    (∀ p bts, Effect.createBinary p bts ∉
      unitBody dropMsgs settingsBase envExisting "note.md" fileBase bundleReuse) ∧
    (∀ n, Effect.processImage n ∉
      unitBody dropMsgs settingsBase envExisting "note.md" fileBase bundleReuse) :=
  reuse_short_circuit dropMsgs settingsBase envExisting "note.md" fileBase
    bundleReuse fpReuse ⟨"assets", "photo.webp"⟩ "assets/photo.webp"
    rfl rfl rfl rfl rfl rfl

/-- C8: Folder-creation error policy.  After a successful destination
computation: an `ensureFolderExists` failure whose message starts with
"Folder already exists" leaves the unit's trace identical to the
success case (the pipeline continues with the conflict stage); any
other failure aborts the unit with exactly the folder-failure notice;
and sibling units are unaffected because every unit's trace is a
function of its own file (last conjunct). -/
theorem folder_error_policy
    (msgs : UnitMsgs) (s : Settings) (env : Env) (activeFile : String)
    (file : RawFile) (b : PresetBundle) (dest : DestResult)
    (hdd : env.determineDestination file activeFile b.conversion b.filename
      b.folder = Except.ok dest) :
    (env.ensureFolderExists dest.destinationPath = Except.ok () →
      unitBody msgs s env activeFile file b = unitConflictStage s env file b dest) ∧
    (∀ e, env.ensureFolderExists dest.destinationPath = Except.error e →
      strStartsWith e "Folder already exists" = true →
      unitBody msgs s env activeFile file b = unitConflictStage s env file b dest) ∧
    (∀ e, env.ensureFolderExists dest.destinationPath = Except.error e →
      strStartsWith e "Folder already exists" = false →
      unitBody msgs s env activeFile file b =
        [Effect.notice (msgs.folderFail dest.destinationPath)]) ∧
    (∀ fd af, (handleDrop s env fd (some af)).units =
      (fd.filter (fun d => env.isSupported d.type d.name)).map
        (fun f => dropUnit s env af f)) := by
  refine ⟨?_, ?_, ?_, fun fd af => handleDrop_units s env fd af⟩
  · intro hok
    simp only [unitBody, hdd]
    simp only [hok]
  · intro e herr hpre
    simp only [unitBody, hdd]
    simp only [herr, hpre]
    simp
  · intro e herr hpre
    simp only [unitBody, hdd]
    simp only [herr, hpre]
    simp

/-- Witness for the folder-creation error policy: an "already exists"
failure continues like a success, a "disk full" failure aborts with the
folder notice. -/
theorem folder_error_policy_witness :
    unitBody dropMsgs settingsBase envFolderExists "note.md" fileBase bundleBase =
      unitConflictStage settingsBase envFolderExists fileBase bundleBase
        ⟨"assets", "photo.webp"⟩ ∧
    unitBody dropMsgs settingsBase envFolderFail "note.md" fileBase bundleBase =
      [Effect.notice (dropMsgs.folderFail "assets")] :=
  ⟨(folder_error_policy dropMsgs settingsBase envFolderExists "note.md" fileBase
      bundleBase ⟨"assets", "photo.webp"⟩ rfl).2.1
      "Folder already exists: assets" rfl (by decide),
   (folder_error_policy dropMsgs settingsBase envFolderFail "note.md" fileBase
      bundleBase ⟨"assets", "photo.webp"⟩ rfl).2.2.1
      "disk full" rfl (by decide)⟩

/-- C9: Transcoding error classification.  When the transcoder throws
inside a unit that reached the processing stage, the unit's trace is the
transcoder invocation followed by exactly one user notice, classified by
the error message ("File already exists" / "Invalid input file type" /
generic with the underlying message); no file is written for the unit,
and sibling units are unaffected (each unit's trace is a function of its
own file). -/
theorem transcode_error_classification
    (msgs : UnitMsgs) (s : Settings) (env : Env) (activeFile : String)
    (file : RawFile) (b : PresetBundle) (fp : FilenamePreset)
    (cp : ConversionPreset) (dest : DestResult) (e : String)
    (hfp : b.filename = some fp)
    (hcp : b.conversion = some cp)
    (hskipR : env.should_skip_rename file.name fp = false)
    (hinc : (fp.conflictResolution == "increment") = false)
    (hskipC : env.should_skip_conversion file.name cp = false)
    (hdd : env.determineDestination file activeFile b.conversion b.filename
      b.folder = Except.ok dest)
    (hfold : env.ensureFolderExists dest.destinationPath = Except.ok ())
    (hex : env.getAbstractFileByPath
      (dest.destinationPath ++ "/" ++ dest.newFilename) = none)
    (hproc : env.processImage file (processArgsFor s b.conversion) =
      Except.error e) :
    unitBody msgs s env activeFile file b =
      [Effect.processImage file.name,
       Effect.notice (classifyProcessNotice e dest.newFilename file.name)] ∧
    ((unitBody msgs s env activeFile file b).filter Effect.isNotice).length = 1 ∧
    (strIncludes e "File already exists" = true →
      classifyProcessNotice e dest.newFilename file.name =
        alreadyExistsNotice dest.newFilename) ∧
    (strIncludes e "File already exists" = false →
      strIncludes e "Invalid input file type" = true →
      classifyProcessNotice e dest.newFilename file.name =
        invalidInputNotice file.name) ∧
    (strIncludes e "File already exists" = false →
      strIncludes e "Invalid input file type" = false →
      classifyProcessNotice e dest.newFilename file.name =
        genericFailNotice file.name e) ∧
    (∀ p bts, Effect.createBinary p bts ∉ unitBody msgs s env activeFile file b) ∧
    (∀ fd af, (handleDrop s env fd (some af)).units =
      (fd.filter (fun d => env.isSupported d.type d.name)).map
        (fun f => dropUnit s env af f)) := by
  have h1 : skipRenameHit env file b = false := by
    simp [skipRenameHit, hfp, hskipR]
  have h2 : filenameResIs b "increment" = false := by
    simp [filenameResIs, hfp, hinc]
  have h3 : skipConversionHit env file b = false := by
    simp [skipConversionHit, hcp, hskipC]
  have hmain : unitBody msgs s env activeFile file b =
      [Effect.processImage file.name,
       Effect.notice (classifyProcessNotice e dest.newFilename file.name)] := by
    simp only [unitBody, hdd]
    simp only [hfold]
    simp only [unitConflictStage, hex, h1, h2]
    simp only [unitMaterializeStage]
    simp only [unitProcessStage, h3, hproc]
    simp
  refine ⟨hmain, ?_, ?_, ?_, ?_, ?_, fun fd af => handleDrop_units s env fd af⟩
  · rw [hmain]; simp [Effect.isNotice]
  · intro h; simp [classifyProcessNotice, h]
  · intro h1 h2; simp [classifyProcessNotice, h1, h2]
  · intro h1 h2; simp [classifyProcessNotice, h1, h2]
  · rw [hmain]; simp

/-- Witness for the transcoding error classification at a concrete
environment whose transcoder throws "Invalid input file type: bmp". -/
theorem transcode_error_classification_witness :
    unitBody dropMsgs settingsBase envProcFail "note.md" fileBase bundleBase =
      [Effect.processImage "photo.png",
       Effect.notice (classifyProcessNotice "Invalid input file type: bmp"
         "photo.webp" "photo.png")] ∧
    ((unitBody dropMsgs settingsBase envProcFail "note.md" fileBase
      bundleBase).filter Effect.isNotice).length = 1 ∧
    (strIncludes "Invalid input file type: bmp" "File already exists" = true →
      classifyProcessNotice "Invalid input file type: bmp" "photo.webp" "photo.png" =
        alreadyExistsNotice "photo.webp") ∧
    (strIncludes "Invalid input file type: bmp" "File already exists" = false →
      strIncludes "Invalid input file type: bmp" "Invalid input file type" = true →
      classifyProcessNotice "Invalid input file type: bmp" "photo.webp" "photo.png" =
        invalidInputNotice "photo.png") ∧
    (strIncludes "Invalid input file type: bmp" "File already exists" = false →
      strIncludes "Invalid input file type: bmp" "Invalid input file type" = false →
      classifyProcessNotice "Invalid input file type: bmp" "photo.webp" "photo.png" =
        genericFailNotice "photo.png" "Invalid input file type: bmp") ∧
    (∀ p bts, Effect.createBinary p bts ∉
      unitBody dropMsgs settingsBase envProcFail "note.md" fileBase bundleBase) ∧
    (∀ fd af, (handleDrop settingsBase envProcFail fd (some af)).units =
      (fd.filter (fun d => envProcFail.isSupported d.type d.name)).map
        (fun f => dropUnit settingsBase envProcFail af f)) :=
  transcode_error_classification dropMsgs settingsBase envProcFail "note.md"
    fileBase bundleBase fpKeep cpBase ⟨"assets", "photo.webp"⟩
    "Invalid input file type: bmp" rfl rfl rfl (by decide) rfl rfl rfl rfl rfl

/-- C2 (amended): Revert-if-larger.  With the revert setting on and a
strictly larger transcoded result, the unit writes exactly the original
bytes to the destination; the size-comparison notice, when the
notification setting is on, carries the original size and the larger
processed size (the source passes `processedImage.byteLength` as the new
size, so the delta is positive, not 0%). -/
theorem revert_if_larger_amended
    (msgs : UnitMsgs) (s : Settings) (env : Env) (activeFile : String)
    (file : RawFile) (b : PresetBundle) (fp : FilenamePreset)
    (cp : ConversionPreset) (dest : DestResult) (processed : List Nat)
    (tpath : String)
    (hfp : b.filename = some fp)
    (hcp : b.conversion = some cp)
    (hskipR : env.should_skip_rename file.name fp = false)
    (hinc : (fp.conflictResolution == "increment") = false)
    (hskipC : env.should_skip_conversion file.name cp = false)
    (hdd : env.determineDestination file activeFile b.conversion b.filename
      b.folder = Except.ok dest)
    (hfold : env.ensureFolderExists dest.destinationPath = Except.ok ())
    (hex : env.getAbstractFileByPath
      (dest.destinationPath ++ "/" ++ dest.newFilename) = none)
    (hproc : env.processImage file (processArgsFor s b.conversion) =
      Except.ok processed)
    (hrev : s.revertToOriginalIfLarger = true)
    (hlen : file.size < processed.length)
    (hcb : env.createBinary
      (env.combinePath dest.destinationPath dest.newFilename) file.bytes =
      Except.ok tpath) :
    unitBody msgs s env activeFile file b =
      Effect.processImage file.name ::
      showSizeComparisonNotification s file.size processed.length ++
      [Effect.notice (usingOriginalNotice file.name),
       Effect.createBinary
         (env.combinePath dest.destinationPath dest.newFilename) file.bytes,
       Effect.insertLink tpath] ∧
    (∀ p bts, Effect.createBinary p bts ∈ unitBody msgs s env activeFile file b →
      bts = file.bytes) ∧
    (s.showSpaceSavedNotification = true →
      Effect.sizeNotice file.size processed.length ∈
        unitBody msgs s env activeFile file b) ∧
    (∀ a bn, Effect.sizeNotice a bn ∈ unitBody msgs s env activeFile file b →
      a = file.size ∧ bn = processed.length) := by
  have h1 : skipRenameHit env file b = false := by
    simp [skipRenameHit, hfp, hskipR]
  have h2 : filenameResIs b "increment" = false := by
    simp [filenameResIs, hfp, hinc]
  have h3 : skipConversionHit env file b = false := by
    simp [skipConversionHit, hcp, hskipC]
  have hmain : unitBody msgs s env activeFile file b =
      Effect.processImage file.name ::
      showSizeComparisonNotification s file.size processed.length ++
      [Effect.notice (usingOriginalNotice file.name),
       Effect.createBinary
         (env.combinePath dest.destinationPath dest.newFilename) file.bytes,
       Effect.insertLink tpath] := by
    simp only [unitBody, hdd]
    simp only [hfold]
    simp only [unitConflictStage, hex, h1, h2, Bool.false_eq_true, if_false]
    simp only [unitMaterializeStage]
    simp only [unitProcessStage, h3, Bool.false_eq_true, if_false, hproc]
    have hcond : s.revertToOriginalIfLarger = true ∧
        file.size < processed.length := ⟨hrev, hlen⟩
    rw [if_pos hcond]
    simp only [hcb]
    rfl
  refine ⟨hmain, ?_, ?_, ?_⟩
  · intro p bts hmem
    rw [hmain] at hmem
    unfold showSizeComparisonNotification at hmem
    by_cases hsn : s.showSpaceSavedNotification <;> simp [hsn] at hmem <;>
      exact hmem.2
  · intro hsn
    rw [hmain]
    simp [showSizeComparisonNotification, hsn]
  · intro a bn hmem
    rw [hmain] at hmem
    unfold showSizeComparisonNotification at hmem
    by_cases hsn : s.showSpaceSavedNotification <;> simp [hsn] at hmem
    exact hmem

/-- Witness for the amended revert-if-larger theorem: original of 3
bytes, transcoded result of 4 bytes. -/
theorem revert_if_larger_amended_witness :
    unitBody dropMsgs settingsRevert envLarger "note.md" fileBase bundleBase =
      Effect.processImage "photo.png" ::
      showSizeComparisonNotification settingsRevert fileBase.size 4 ++
      [Effect.notice (usingOriginalNotice "photo.png"),
       Effect.createBinary "assets/photo.webp" [1, 2, 3],
       Effect.insertLink "assets/photo.webp"] ∧
    (∀ p bts, Effect.createBinary p bts ∈
      unitBody dropMsgs settingsRevert envLarger "note.md" fileBase bundleBase →
      bts = fileBase.bytes) ∧
    (settingsRevert.showSpaceSavedNotification = true →
      Effect.sizeNotice fileBase.size 4 ∈
        unitBody dropMsgs settingsRevert envLarger "note.md" fileBase bundleBase) ∧
    (∀ a bn, Effect.sizeNotice a bn ∈
      unitBody dropMsgs settingsRevert envLarger "note.md" fileBase bundleBase →
      a = fileBase.size ∧ bn = 4) :=
  revert_if_larger_amended dropMsgs settingsRevert envLarger "note.md" fileBase
    bundleBase fpKeep cpBase ⟨"assets", "photo.webp"⟩ [0, 0, 0, 0]
    "assets/photo.webp" rfl rfl rfl (by decide) rfl rfl rfl rfl rfl rfl
    (by decide) rfl

/-- C2 (counterexample): with revert-if-larger on and a 4-byte result
for a 3-byte original, the materialized bytes are the original bytes
(that half of the claim holds), but the emitted size-comparison notice
carries sizes 3 and 4 — not the original size twice as the claim
states. -/
theorem revert_notice_sizes_cex :
    settingsRevert.revertToOriginalIfLarger = true ∧
    settingsRevert.showSpaceSavedNotification = true ∧
    RawFile.size fileBase < 4 ∧
    Effect.createBinary "assets/photo.webp" [1, 2, 3] ∈
      dropUnit settingsRevert envLarger "note.md" fileBase ∧
    Effect.sizeNotice 3 4 ∈ dropUnit settingsRevert envLarger "note.md" fileBase ∧
    Effect.sizeNotice 3 3 ∉ dropUnit settingsRevert envLarger "note.md" fileBase := by
  decide

/-- C1 (amended): the two skip axes are not independent in the
skip-rename direction.  A unit matching a skip-rename pattern skips
conversion as well: its trace is the skip notice plus at most a link to
an already-existing destination entry — the transcoder is never invoked
and nothing is written.  A unit matching only a skip-conversion pattern
is still renamed (it passed the rename/conflict stage) and is
materialized with its original bytes, without invoking the transcoder. -/
theorem skip_axes_amended
    (msgs : UnitMsgs) (s : Settings) (env : Env) (activeFile : String)
    (file : RawFile) (b : PresetBundle) (fp : FilenamePreset) (dest : DestResult)
    (hfp : b.filename = some fp)
    (hdd : env.determineDestination file activeFile b.conversion b.filename
      b.folder = Except.ok dest)
    (hfold : env.ensureFolderExists dest.destinationPath = Except.ok ()) :
    (env.should_skip_rename file.name fp = true →
      unitBody msgs s env activeFile file b =
        Effect.notice (skipRenameNotice file.name) ::
        (match env.getAbstractFileByPath
           (dest.destinationPath ++ "/" ++ dest.newFilename) with
         | some ef => [Effect.insertLink ef]
         | none => []) ∧
      (∀ n, Effect.processImage n ∉ unitBody msgs s env activeFile file b) ∧
      (∀ p bts, Effect.createBinary p bts ∉ unitBody msgs s env activeFile file b)) ∧
    (∀ cp tpath, b.conversion = some cp →
      env.should_skip_rename file.name fp = false →
      (fp.conflictResolution == "increment") = false →
      env.getAbstractFileByPath
        (dest.destinationPath ++ "/" ++ dest.newFilename) = none →
      env.should_skip_conversion file.name cp = true →
      env.createBinary (env.combinePath dest.destinationPath dest.newFilename)
        file.bytes = Except.ok tpath →
      unitBody msgs s env activeFile file b =
        [Effect.notice (skipConversionNotice file.name),
         Effect.createBinary
           (env.combinePath dest.destinationPath dest.newFilename) file.bytes,
         Effect.insertLink tpath] ∧
      (∀ n, Effect.processImage n ∉ unitBody msgs s env activeFile file b)) := by
  constructor
  · intro hskip
    have h1 : skipRenameHit env file b = true := by
      simp [skipRenameHit, hfp, hskip]
    have hmain : unitBody msgs s env activeFile file b =
        Effect.notice (skipRenameNotice file.name) ::
        (match env.getAbstractFileByPath
           (dest.destinationPath ++ "/" ++ dest.newFilename) with
         | some ef => [Effect.insertLink ef]
         | none => []) := by
      simp only [unitBody, hdd]
      simp only [hfold]
      simp only [unitConflictStage, h1, if_true]
    refine ⟨hmain, ?_, ?_⟩ <;> intro n <;> rw [hmain] <;>
      cases hgf : env.getAbstractFileByPath
        (dest.destinationPath ++ "/" ++ dest.newFilename) <;> simp
  · intro cp tpath hcp hskipR hinc hex hskipC hcb
    have h1 : skipRenameHit env file b = false := by
      simp [skipRenameHit, hfp, hskipR]
    have h2 : filenameResIs b "increment" = false := by
      simp [filenameResIs, hfp, hinc]
    have h3 : skipConversionHit env file b = true := by
      simp [skipConversionHit, hcp, hskipC]
    have hmain : unitBody msgs s env activeFile file b =
        [Effect.notice (skipConversionNotice file.name),
         Effect.createBinary
           (env.combinePath dest.destinationPath dest.newFilename) file.bytes,
         Effect.insertLink tpath] := by
      simp only [unitBody, hdd]
      simp only [hfold]
      simp only [unitConflictStage, hex, h1, h2, Bool.false_eq_true, if_false]
      simp only [unitMaterializeStage]
      simp only [unitProcessStage, h3, if_true, hcb]
    refine ⟨hmain, ?_⟩
    intro n
    rw [hmain]
    simp

/-- Witness for the amended skip-axes theorem, covering both directions
at concrete environments. -/
theorem skip_axes_amended_witness :
    (unitBody dropMsgs settingsBase envSkipRename "note.md" fileBase bundleBase =
      [Effect.notice (skipRenameNotice "photo.png")] ∧
     (∀ n, Effect.processImage n ∉
       unitBody dropMsgs settingsBase envSkipRename "note.md" fileBase bundleBase) ∧
     (∀ p bts, Effect.createBinary p bts ∉
       unitBody dropMsgs settingsBase envSkipRename "note.md" fileBase bundleBase)) ∧
    (unitBody dropMsgs settingsBase envSkipConv "note.md" fileBase bundleBase =
      [Effect.notice (skipConversionNotice "photo.png"),
       Effect.createBinary "assets/photo.webp" [1, 2, 3],
       Effect.insertLink "assets/photo.webp"] ∧
     (∀ n, Effect.processImage n ∉
       unitBody dropMsgs settingsBase envSkipConv "note.md" fileBase bundleBase)) :=
  ⟨(skip_axes_amended dropMsgs settingsBase envSkipRename "note.md" fileBase
      bundleBase fpKeep ⟨"assets", "photo.webp"⟩ rfl rfl rfl).1 rfl,
   (skip_axes_amended dropMsgs settingsBase envSkipConv "note.md" fileBase
      bundleBase fpKeep ⟨"assets", "photo.webp"⟩ rfl rfl rfl).2 cpBase
      "assets/photo.webp" rfl rfl (by decide) rfl rfl rfl⟩

/-- C1 (counterexample): a file matching a skip-rename pattern but no
skip-conversion pattern, with nothing else gating the pipeline, yields
only the skip notice — the transcoder is not invoked and no transcoded
output is materialized, refuting the claimed skip independence. -/
theorem skipRename_blocks_transcode_cex :
    envSkipRename.should_skip_rename fileBase.name fpKeep = true ∧
    envSkipRename.should_skip_conversion fileBase.name cpBase = false ∧
    dropUnit settingsBase envSkipRename "note.md" fileBase =
      [Effect.notice (skipRenameNotice "photo.png")] ∧
    Effect.processImage "photo.png" ∉
      dropUnit settingsBase envSkipRename "note.md" fileBase := by
  decide

/-- C3: the never-process exclusion is applied only inside the
event-level gate, not in the per-file filter of `handleDrop`: with one
ordinary file and one file matching the never-process patterns, the gate
fires, two units are created, and the never-process file is fully
processed (transcoded and written) — although the same file alone leaves
the gate closed and the event untouched. -/
theorem neverProcess_filter_gap :
    dropEventGate settingsNever envNever [fileBase, fileNever] = true ∧
    dropEventGate settingsNever envNever [fileNever] = false ∧
    envNever.matches_patterns fileNever.name settingsNever.neverProcessFilenames =
      true ∧
    (handleDrop settingsNever envNever [fileBase, fileNever] (some "note.md")).units =
      [dropUnit settingsNever envNever "note.md" fileBase,
       dropUnit settingsNever envNever "note.md" fileNever] ∧
    Effect.processImage "tmp.png" ∈
      dropUnit settingsNever envNever "note.md" fileNever ∧
    Effect.createBinary "assets/photo.webp" [0] ∈
      dropUnit settingsNever envNever "note.md" fileNever := by
  decide

/-- C4: a throw during the preset-resolution segment of a paste unit
escapes the unit's boundary (the per-unit try/catch of `handlePaste`
opens only after preset resolution) and rejects the aggregate join,
while the identical throw in a drop unit is caught at the unit boundary
and becomes a notice, the join resolving. -/
theorem paste_preset_throw_rejects_join :
    handlePaste settingsAlways envModalFail [itemBase] (some "note.md") =
      Except.error "preset modal failure" ∧
    (handleDrop settingsAlways envModalFail [fileBase] (some "note.md")).units =
      [[Effect.notice unexpectedNotice]] :=
  ⟨rfl, by decide⟩

/-- C6: Deterministic preset fallback.  On a non-empty collection,
`getPresetByName` always returns some element: the first entry of the
collection (with the diagnostic warning) when no entry carries the
requested name, and the first matching entry when one does. -/
theorem getPresetByName_fallback_total {T : Type} (nameOf : T → String)
    (presetName : String) (presetArray : List T) (h : presetArray ≠ []) :
    (∃ p, getPresetByName nameOf presetName presetArray = some p) ∧
    ((∀ p ∈ presetArray, nameOf p ≠ presetName) →
      getPresetByName nameOf presetName presetArray = presetArray.head? ∧
      getPresetByNameWarned nameOf presetName presetArray = true) ∧
    (∀ p, presetArray.find? (fun q => nameOf q == presetName) = some p →
      getPresetByName nameOf presetName presetArray = some p ∧
      nameOf p = presetName) := by
  refine ⟨?_, ?_, ?_⟩
  · unfold getPresetByName
    cases hf : presetArray.find? (fun q => nameOf q == presetName) with
    | some p => exact ⟨p, rfl⟩
    | none =>
      cases presetArray with
      | nil => exact absurd rfl h
      | cons a l => exact ⟨a, rfl⟩
  · intro hnone
    have hf : presetArray.find? (fun q => nameOf q == presetName) = none := by
      rw [List.find?_eq_none]
      intro x hx
      simp only [beq_iff_eq]
      exact hnone x hx
    constructor
    · unfold getPresetByName
      rw [hf]
    · unfold getPresetByNameWarned
      rw [hf]
      rfl
  · intro p hp
    have hpred := List.find?_some hp
    simp only [beq_iff_eq] at hpred
    constructor
    · unfold getPresetByName
      rw [hp]
    · exact hpred

/-- Witness for the preset fallback on a concrete two-element
collection and an absent name. -/
theorem getPresetByName_fallback_total_witness :
    (∃ p, getPresetByName FolderPreset.name "zzz"
      [FolderPreset.mk "a", FolderPreset.mk "b"] = some p) ∧
    ((∀ p ∈ [FolderPreset.mk "a", FolderPreset.mk "b"],
        FolderPreset.name p ≠ "zzz") →
      getPresetByName FolderPreset.name "zzz"
        [FolderPreset.mk "a", FolderPreset.mk "b"] =
        [FolderPreset.mk "a", FolderPreset.mk "b"].head? ∧
      getPresetByNameWarned FolderPreset.name "zzz"
        [FolderPreset.mk "a", FolderPreset.mk "b"] = true) ∧
    (∀ p, [FolderPreset.mk "a", FolderPreset.mk "b"].find?
        (fun q => FolderPreset.name q == "zzz") = some p →
      getPresetByName FolderPreset.name "zzz"
        [FolderPreset.mk "a", FolderPreset.mk "b"] = some p ∧
      FolderPreset.name p = "zzz") :=
  getPresetByName_fallback_total FolderPreset.name "zzz"
    [FolderPreset.mk "a", FolderPreset.mk "b"] (by decide)

/-- C7: Cursor placement.  Under `cursorLocation = "front"` the cursor
after insertion is the captured position and `setCursor` is not called;
under "back" the cursor is the captured position with its character
offset advanced by exactly the formatted link's length. -/
theorem cursor_placement (s : Settings) (env : Env) (activeFile : Option String)
    (linkPath : String) (cursor : EditorPosition)
    (lfp : Option LinkFormatPreset) (rp : Option NonDestructiveResizePreset) :
    (s.cursorLocation = "front" →
      (insertLinkAtCursorPosition s env activeFile linkPath cursor lfp rp).cursorAfter
        = cursor ∧
      (insertLinkAtCursorPosition s env activeFile linkPath cursor lfp rp).usedSetCursor
        = false) ∧
    (s.cursorLocation = "back" →
      (insertLinkAtCursorPosition s env activeFile linkPath cursor lfp rp).cursorAfter
        = ⟨cursor.line, cursor.ch +
            (insertLinkAtCursorPosition s env activeFile linkPath cursor
              lfp rp).insertedText.length⟩ ∧
      (insertLinkAtCursorPosition s env activeFile linkPath cursor lfp rp).usedSetCursor
        = true) := by
  constructor <;> intro h <;>
    simp [insertLinkAtCursorPosition, h]

/-- Witness for cursor placement at a concrete position under both the
"front" and "back" settings. -/
theorem cursor_placement_witness :
    ((insertLinkAtCursorPosition settingsBase envBase (some "note.md")
        "assets/photo.webp" ⟨4, 7⟩ none none).cursorAfter = ⟨4, 7⟩ ∧
     (insertLinkAtCursorPosition settingsBase envBase (some "note.md")
        "assets/photo.webp" ⟨4, 7⟩ none none).usedSetCursor = false) ∧
    ((insertLinkAtCursorPosition settingsBack envBase (some "note.md")
        "assets/photo.webp" ⟨4, 7⟩ none none).cursorAfter =
       ⟨4, 7 + (insertLinkAtCursorPosition settingsBack envBase (some "note.md")
          "assets/photo.webp" ⟨4, 7⟩ none none).insertedText.length⟩ ∧
     (insertLinkAtCursorPosition settingsBack envBase (some "note.md")
        "assets/photo.webp" ⟨4, 7⟩ none none).usedSetCursor = true) :=
  ⟨(cursor_placement settingsBase envBase (some "note.md") "assets/photo.webp"
      ⟨4, 7⟩ none none).1 rfl,
   (cursor_placement settingsBack envBase (some "note.md") "assets/photo.webp"
      ⟨4, 7⟩ none none).2 rfl⟩

/-- C10: File-size formatting boundaries.  Byte counts below 1024 are
rendered in plain bytes; counts in [1024, 1048576) in KB and larger
counts in MB, each as the quotient rounded to one decimal place: the
rendered tenths value t satisfies den*t ≤ 10*n + den/2 and
10*n < den*t + den/2 (nearest tenth, ties rounded up, exactly as
`toFixed(1)` behaves on these exactly-representable quotients). -/
theorem formatFileSize_boundaries (n : Nat) :
    (n < 1024 → formatFileSize n = toString n ++ " bytes") ∧
    (1024 ≤ n → n < 1048576 →
      formatFileSize n = oneDecimalString (roundTenths n 1024) ++ " KB" ∧
      2048 * roundTenths n 1024 ≤ 20 * n + 1024 ∧
      20 * n < 2048 * roundTenths n 1024 + 1024) ∧
    (1048576 ≤ n →
      formatFileSize n = oneDecimalString (roundTenths n (1024 * 1024)) ++ " MB" ∧
      2097152 * roundTenths n (1024 * 1024) ≤ 20 * n + 1048576 ∧
      20 * n < 2097152 * roundTenths n (1024 * 1024) + 1048576) := by
  refine ⟨?_, ?_, ?_⟩
  · intro h
    simp [formatFileSize, h]
  · intro h1 h2
    have hb : ¬ n < 1024 := by omega
    refine ⟨?_, ?_, ?_⟩
    · rw [formatFileSize, if_neg hb, if_pos (by omega)]
    · unfold roundTenths
      omega
    · unfold roundTenths
      omega
  · intro h1
    have hb : ¬ n < 1024 := by omega
    have hb2 : ¬ n < 1024 * 1024 := by omega
    refine ⟨?_, ?_, ?_⟩
    · rw [formatFileSize, if_neg hb, if_neg hb2]
    · unfold roundTenths
      omega
    · unfold roundTenths
      omega

/-- Witness for the size-formatting boundaries at 500 bytes, 1536 bytes
and 3 MiB. -/
theorem formatFileSize_boundaries_witness :
    formatFileSize 500 = toString 500 ++ " bytes" ∧
    (formatFileSize 1536 = oneDecimalString (roundTenths 1536 1024) ++ " KB" ∧
      2048 * roundTenths 1536 1024 ≤ 20 * 1536 + 1024 ∧
      20 * 1536 < 2048 * roundTenths 1536 1024 + 1024) ∧
    (formatFileSize 3145728 =
        oneDecimalString (roundTenths 3145728 (1024 * 1024)) ++ " MB" ∧
      2097152 * roundTenths 3145728 (1024 * 1024) ≤ 20 * 3145728 + 1048576 ∧
      20 * 3145728 < 2097152 * roundTenths 3145728 (1024 * 1024) + 1048576) :=
  ⟨(formatFileSize_boundaries 500).1 (by decide),
   (formatFileSize_boundaries 1536).2.1 (by decide) (by decide),
   (formatFileSize_boundaries 3145728).2.2 (by decide)⟩

end ImageConverter
